import Mathlib

/-!
Verification of the activity-chain core of the simmer discrete-event
simulator (inst/include/simmer/activity.h), shallowly embedded in Lean.

The embedding models:
- the `Activity` base class (fields, constructor, copy constructor,
  `print`, `remove`, and the three `get` parameter resolvers);
- the `internal` helpers `head`, `tail`, `get_op` and the two printing
  helpers (`print(bool, bool)` and the variadic argument printer
  generated by the Boost.PP `PRINT_FUNC` macro);
- the external collaborators the header talks to (the R trajectory
  environment, `Rcpp::as`, and the formatting macros `IND`/`FMT` from
  common.h, which is not part of the supplied source) only at their
  interface, as the spec describes them.

The C++ `double` is modelled by exact rationals (`Dbl := ℚ`); IEEE-754
rounding is outside the scope of this embedding.  C++ output streaming
is modelled by functions returning the `String` that would be written to
`Rcpp::Rcout`.  Heap mutation (the independence of a copied node from
its original) is modelled by a list-indexed store of `Activity` values.
-/

namespace simmer

/-- Model of the C++ `double` type: exact rationals (rounding is out of
scope for this development). -/
def Dbl := ℚ

instance : Add Dbl := inferInstanceAs (Add ℚ)
instance : Mul Dbl := inferInstanceAs (Mul ℚ)
instance : OfNat Dbl n := inferInstanceAs (OfNat ℚ n)
instance : DecidableEq Dbl := inferInstanceAs (DecidableEq ℚ)

/-- Execution context (the `Arrival` collaborator).  The core passes it
opaquely; an identifier is enough to distinguish contexts. -/
structure Arrival where
  id : Nat
deriving DecidableEq, Repr

/-- The `Activity` base-class state: `name`, `tag`, `count`, `priority`
(public data members) and the protected link pointers `next`/`prev`,
modelled as optional node addresses (`NULL` is `none`). -/
structure Activity where
  name : String
  tag : String
  count : Int
  priority : Int
  next : Option Nat
  prev : Option Nat
deriving DecidableEq, Repr

namespace Activity

/-- Embedding of the constructor
`Activity(const std::string& name, int priority = 0)
  : name(name), tag(""), count(1), priority(priority), next(NULL), prev(NULL)`. -/
def init (name : String) (priority : Int) : Activity :=
  { name := name, tag := "", count := 1, priority := priority
    next := none, prev := none }

/-- Embedding of the copy constructor
`Activity(const Activity& o)
  : name(o.name), tag(o.tag), count(o.count), priority(o.priority), next(NULL), prev(NULL)`. -/
def copy (o : Activity) : Activity :=
  { name := o.name, tag := o.tag, count := o.count, priority := o.priority
    next := none, prev := none }

/-- Embedding of `virtual void remove(Arrival* arrival) {}`: the body is
empty, so the resulting node state and arrival state are the inputs. -/
def remove (a : Activity) (arrival : Arrival) : Activity × Arrival :=
  (a, arrival)

/-- Embedding of the constant-source resolver
`template <typename T> T get(const T& var, Arrival* arrival) const \x7b return var; \x7d`. -/
def get {T : Type} (var : T) (_arrival : Arrival) : T :=
  var

/-- Embedding of the native-callback resolver
`template <typename T> T get(const Fn<T(Arrival*)>& call, Arrival* arrival) const
\x7b return call(arrival); \x7d`, with the callback's side effects made
explicit by threading a state `σ` through the call. -/
def getFnS {T σ : Type} (call : Arrival → σ → T × σ) (arrival : Arrival) (s : σ) : T × σ :=
  call arrival s

end Activity

/-- Modelled from the spec: the `IND(indent)` macro of common.h (not
under the supplied source), which writes `indent` spaces at the start of
a line. -/
def IND (indent : Nat) : String :=
  String.mk (List.replicate indent ' ')

/-- Modelled from the spec: the `FMT(width, justify)` macro of common.h
(not under the supplied source), a fixed-width left- or right-justified
field (space padding, no truncation of longer content). -/
def FMT (width : Nat) (leftJustify : Bool) (s : String) : String :=
  if leftJustify then s ++ String.mk (List.replicate (width - s.length) ' ')
  else String.mk (List.replicate (width - s.length) ' ') ++ s

/-- Embedding of `virtual void Activity::print(unsigned int indent, bool
verbose, bool brief)`, returning the text written to `Rcpp::Rcout`.  The
memory identities streamed in verbose mode (`prev`, `this`, `next`) are
supplied as the strings `prevId`, `thisId`, `nextId`, since addresses
are not part of the embedding. -/
def Activity.printHeader (a : Activity) (prevId thisId nextId : String)
    (indent : Nat) (verbose brief : Bool) : String :=
  if brief then ""
  else
    IND indent ++ "\x7b Activity: " ++ FMT 12 true a.name ++ " | "
    ++ (if verbose then
          FMT 9 false prevId ++ " <- " ++ FMT 9 false thisId ++ " -> "
          ++ FMT 9 true nextId ++ " | "
        else "")
    ++ (if a.tag ≠ "" then "[" ++ a.tag ++ "] " else "")

namespace internal

/-- Embedding of `inline void print(bool brief, bool endl)`: writes the
closing delimiter and newline unless `brief`, and only a newline when
`brief && endl`. -/
def printEnd (brief endl : Bool) : String :=
  if !brief then " \x7d\n"
  else if endl then "\n"
  else ""

/-- Embedding of the variadic `internal::print(bool brief, bool endl,
const char* n0, T0& v0, ...)` family generated by the `PRINT_FUNC`
Boost.PP macro, with the (label, rendered value) pairs as a list.  Each
step writes the label unless `brief`, then the value, then a comma
separator when further arguments follow or when `brief && !endl`; the
base case is `print(brief, endl)`. -/
def printArgs (brief endl : Bool) : List (String × String) → String
  | [] => printEnd brief endl
  | (n, v) :: rest =>
    (if !brief then n else "") ++ v
    ++ (if rest ≠ [] ∨ (brief ∧ !endl) then ", " else "")
    ++ printArgs brief endl rest

end internal

/-- Full diagnostic output of one node as a concrete subclass renders
it: `Activity::print` (the header) followed by `internal::print` for the
labeled arguments and the closing delimiter. -/
def Activity.printFull (a : Activity) (prevId thisId nextId : String)
    (indent : Nat) (verbose brief endl : Bool)
    (args : List (String × String)) : String :=
  a.printHeader prevId thisId nextId indent verbose brief
    ++ internal.printArgs brief endl args

/-- Modelled from the spec: the dynamically-typed host value (`SEXP`)
produced by an R closure, as far as this core observes it: nil, a
scalar, or an external pointer to an activity node. -/
inductive RValue where
  | nil
  | int (i : Int)
  | real (r : Dbl)
  | str (s : String)
  | xptr (a : Activity)
deriving DecidableEq

/-- Error raised when a dynamically-typed host value cannot be converted
to the requested target type (the `Rcpp::not_compatible` /
`TypeConversionError` of the spec). -/
inductive TypeConversionError where
  | notCompatible
deriving DecidableEq, Repr

/-- Embedding of the host-closure resolver
`template <typename T> T get(const RFn& call, Arrival* arrival) const
\x7b return Rcpp::as<T>(call()); \x7d`.  The library conversion
`Rcpp::as<T>` is supplied as the parameter `as`, returning `Except` so a
conversion failure surfaces to the caller. -/
def Activity.getRFn {T : Type} (as : RValue → Except TypeConversionError T)
    (call : Unit → RValue) (_arrival : Arrival) : Except TypeConversionError T :=
  as (call ())

/-- Modelled from the spec: `Rcpp::as<int>`, a concrete instance of the
dynamic conversion — an integer value converts, anything else fails with
a conversion error. -/
def asInt : RValue → Except TypeConversionError Int
  | RValue.int i => Except.ok i
  | _ => Except.error TypeConversionError.notCompatible

/-- Modelled from the spec: the externally-held R trajectory
environment, observed through its `head` and `tail` methods (zero-
argument R closures returning nil or an external pointer). -/
structure Trajectory where
  headFn : Unit → RValue
  tailFn : Unit → RValue

/-- Embedding of `Rcpp::as<Rcpp::XPtr<Activity>>`: succeeds exactly on
an external pointer. -/
def asXPtr : RValue → Option Activity
  | RValue.xptr a => some a
  | _ => none

namespace internal

/-- Embedding of `inline class Activity* head(const REnv& trajectory)`:
calls the trajectory's `head` method, returns `NULL` when it yields
`R_NilValue`, and otherwise the node the returned external pointer
designates. -/
def head (trajectory : Trajectory) : Option Activity :=
  if trajectory.headFn () = RValue.nil then none
  else asXPtr (trajectory.headFn ())

/-- Embedding of `inline class Activity* tail(const REnv& trajectory)`:
calls the trajectory's `tail` method, returns `NULL` when it yields
`R_NilValue`, and otherwise the node the returned external pointer
designates. -/
def tail (trajectory : Trajectory) : Option Activity :=
  if trajectory.tailFn () = RValue.nil then none
  else asXPtr (trajectory.tailFn ())

/-- Embedding of `template <typename T> Fn<T(T, T)> get_op(char mod)`.
`BIND(std::plus<double>(), _1, _2)` called at `T` arguments converts
each operand to `double`, combines with the `double` operation, and
converts the `double` result back to `T` for the return; the
conversions `T -> double` and `double -> T` are the parameters `toD`
and `fromD`.  An unmatched tag falls through to `return NULL`. -/
def get_op {T : Type} (toD : T → Dbl) (fromD : Dbl → T) (mod : Char) :
    Option (T → T → T) :=
  match mod with
  | '+' => some (fun a b => fromD (toD a + toD b))
  | '*' => some (fun a b => fromD (toD a * toD b))
  | _ => none

end internal

/-- Instrumentation used to observe how often a resolver invokes its
callback: the pure callback `f`, wrapped so that each invocation also
increments a counter. -/
def countCalls {T : Type} (f : Arrival → T) : Arrival → Nat → T × Nat :=
  fun a n => (f a, n + 1)

/-- Store of activity nodes: mutation of one node (identified by its
index) is visible through the store, so independence of a copied node
from its original is expressible. -/
def Store := List Activity

/-- Allocation of a copy: `new Activity(o)` for `o` the node at index
`i` appends the copy-constructed node at the next fresh address. -/
def cloneNodeAt (h : List Activity) (i : Nat) : List Activity :=
  match h[i]? with
  | some a => h ++ [Activity.copy a]
  | none => h

/-- Mutation `node->tag = t` on the node stored at index `j`. -/
def setTagAt (h : List Activity) (j : Nat) (t : String) : List Activity :=
  match h[j]? with
  | some a => h.set j { a with tag := t }
  | none => h

/-- C9: a freshly constructed Activity node has the given name and
priority, an empty tag, count 1, and null next and prev link
pointers. -/
theorem activity_init_spec (name : String) (priority : Int) :
    (Activity.init name priority).name = name ∧
    (Activity.init name priority).tag = "" ∧
    (Activity.init name priority).count = 1 ∧
    (Activity.init name priority).priority = priority ∧
    (Activity.init name priority).next = none ∧
    (Activity.init name priority).prev = none :=
  ⟨rfl, rfl, rfl, rfl, rfl, rfl⟩

/-- C8: the base-class remove operation is a no-op that never fails —
it leaves the node (all fields) and the arrival unchanged, and a second
call on the same pair has no further observable effect, for every
arrival, including one that never reached the node. -/
theorem activity_remove_noop (a : Activity) (arrival : Arrival) :
    Activity.remove a arrival = (a, arrival) ∧
    Activity.remove (Activity.remove a arrival).1 (Activity.remove a arrival).2
      = Activity.remove a arrival :=
  ⟨rfl, rfl⟩

/-- C4: resolving a constant value source returns the stored value
unchanged, for every value and every arrival, and the arrival argument
has no influence on the result. -/
theorem activity_get_const (T : Type) (v : T) (a a' : Arrival) :
    Activity.get v a = v ∧ Activity.get v a = Activity.get v a' :=
  ⟨rfl, rfl⟩

/-- C5: resolving a native-callback source returns exactly the
callback's output for the given arrival and invokes the callback
exactly once per resolution (the instrumented call counter rises by one
per resolution, by two across two successive resolutions — no
memoization). -/
theorem activity_get_fn (T : Type) (f : Arrival → T) (a : Arrival) (n : Nat) :
    Activity.getFnS (countCalls f) a n = (f a, n + 1) ∧
    Activity.getFnS (countCalls f) a (Activity.getFnS (countCalls f) a n).2
      = (f a, n + 2) :=
  ⟨rfl, rfl⟩

/-- C6: resolving a host-closure source invokes the closure and applies
the dynamic conversion to its result; a conversion failure surfaces to
the caller as that same error (never a silent default), and a successful
conversion yields the converted value. -/
theorem activity_get_rfn (T : Type) (as : RValue → Except TypeConversionError T)
    (call : Unit → RValue) (a : Arrival) :
    Activity.getRFn as call a = as (call ()) ∧
    (∀ e, as (call ()) = Except.error e → Activity.getRFn as call a = Except.error e) ∧
    (∀ v, as (call ()) = Except.ok v → Activity.getRFn as call a = Except.ok v) :=
  ⟨rfl, fun _ h => h, fun _ h => h⟩

/-- Witness for C6: a closure returning a string fails integer
conversion with a TypeConversionError. -/
theorem activity_get_rfn_witness :
    Activity.getRFn asInt (fun _ => RValue.str "x") ⟨0⟩
      = Except.error TypeConversionError.notCompatible :=
  (activity_get_rfn Int asInt (fun _ => RValue.str "x") ⟨0⟩).2.1
    TypeConversionError.notCompatible rfl

/-- C7: the trajectory bridge's head and tail return absence exactly
when the trajectory's head/tail method yields nil, and otherwise return
the node designated by the method's result. -/
theorem internal_head_tail_spec (t : Trajectory) :
    (t.headFn () = RValue.nil → internal.head t = none) ∧
    (∀ a, t.headFn () = RValue.xptr a → internal.head t = some a) ∧
    (t.tailFn () = RValue.nil → internal.tail t = none) ∧
    (∀ a, t.tailFn () = RValue.xptr a → internal.tail t = some a) := by
  refine ⟨fun h => ?_, fun a h => ?_, fun h => ?_, fun a h => ?_⟩ <;>
    simp [internal.head, internal.tail, h, asXPtr]

/-- Witness for C7: on a trajectory whose methods yield nil, head and
tail are absent; on one whose methods yield pointers to concrete nodes,
head and tail return those nodes. -/
theorem internal_head_tail_witness :
    internal.head ⟨fun _ => RValue.nil, fun _ => RValue.nil⟩ = none ∧
    internal.tail ⟨fun _ => RValue.nil, fun _ => RValue.nil⟩ = none ∧
    internal.head ⟨fun _ => RValue.xptr (Activity.init "A" 0),
                   fun _ => RValue.xptr (Activity.init "B" 0)⟩
      = some (Activity.init "A" 0) ∧
    internal.tail ⟨fun _ => RValue.xptr (Activity.init "A" 0),
                   fun _ => RValue.xptr (Activity.init "B" 0)⟩
      = some (Activity.init "B" 0) :=
  ⟨(internal_head_tail_spec _).1 rfl,
   (internal_head_tail_spec _).2.2.1 rfl,
   (internal_head_tail_spec _).2.1 _ rfl,
   (internal_head_tail_spec _).2.2.2 _ rfl⟩

/-- C3: the operator resolver yields addition for the plus tag (5 on
inputs 2 and 3), multiplication for the star tag (6 on inputs 2 and 3),
and an absent combinator for every other character tag. -/
theorem internal_get_op_spec :
    (∃ f, internal.get_op (id : Dbl → Dbl) id '+' = some f ∧ f 2 3 = 5) ∧
    (∃ f, internal.get_op (id : Dbl → Dbl) id '*' = some f ∧ f 2 3 = 6) ∧
    (∀ c : Char, c ≠ '+' → c ≠ '*' → internal.get_op (id : Dbl → Dbl) id c = none) := by
  refine ⟨⟨_, rfl, by show (2 + 3 : ℚ) = 5; norm_num⟩,
    ⟨_, rfl, by show (2 * 3 : ℚ) = 6; norm_num⟩, fun c h1 h2 => ?_⟩
  unfold internal.get_op
  split <;> simp_all

/-- Witness for C3: the slash tag yields an absent combinator. -/
theorem internal_get_op_witness :
    internal.get_op (id : Dbl → Dbl) id '/' = none :=
  internal_get_op_spec.2.2 '/' (by decide) (by decide)

/-- C10: at every instantiation type T, the combinators returned for
the plus and star tags convert both operands to double, combine them
with double addition/multiplication, and convert the result back to T;
the combination never uses any native arithmetic of T (none is even
assumed to exist). -/
theorem internal_get_op_double_arithmetic (T : Type)
    (toD : T → Dbl) (fromD : Dbl → T) (a b : T) :
    (∃ f, internal.get_op toD fromD '+' = some f ∧ f a b = fromD (toD a + toD b)) ∧
    (∃ f, internal.get_op toD fromD '*' = some f ∧ f a b = fromD (toD a * toD b)) :=
  ⟨⟨_, rfl, rfl⟩, ⟨_, rfl, rfl⟩⟩

/-- C1: copying a node produces one whose name, tag, count and priority
equal the source's and whose links are null, however the source's links
were set; in the store, mutating the copy's tag leaves the original
node (in particular its tag) unchanged. -/
theorem activity_copy_independent (h : List Activity) (i : Nat) (o : Activity)
    (t : String) (hi : h[i]? = some o) :
    (Activity.copy o).name = o.name ∧
    (Activity.copy o).tag = o.tag ∧
    (Activity.copy o).count = o.count ∧
    (Activity.copy o).priority = o.priority ∧
    (Activity.copy o).next = none ∧
    (Activity.copy o).prev = none ∧
    (cloneNodeAt h i)[h.length]? = some (Activity.copy o) ∧
    (setTagAt (cloneNodeAt h i) h.length t)[h.length]?
      = some { Activity.copy o with tag := t } ∧
    (setTagAt (cloneNodeAt h i) h.length t)[i]? = some o := by
  have hlt : i < h.length := (List.getElem?_eq_some_iff.mp hi).1
  have hclone : cloneNodeAt h i = h ++ [Activity.copy o] := by
    simp [cloneNodeAt, hi]
  have hnew : (cloneNodeAt h i)[h.length]? = some (Activity.copy o) := by
    rw [hclone]; exact List.getElem?_concat_length h (Activity.copy o)
  have hset : setTagAt (cloneNodeAt h i) h.length t
      = (cloneNodeAt h i).set h.length { Activity.copy o with tag := t } := by
    simp [setTagAt, hnew]
  refine ⟨rfl, rfl, rfl, rfl, rfl, rfl, hnew, ?_, ?_⟩
  · rw [hset, List.getElem?_set]
    have : h.length < (cloneNodeAt h i).length := by
      rw [hclone]; simp
    simp [this]
  · rw [hset, List.getElem?_set_ne (Nat.ne_of_gt hlt), hclone,
      List.getElem?_append]
    simp [hlt, hi]

/-- Witness for C1: in a one-node store, cloning the node at index 0
and retagging the copy (stored at index 1) leaves the original intact
while the copy carries the new tag and null links. -/
theorem activity_copy_independent_witness :
    (setTagAt (cloneNodeAt [Activity.init "A" 7] 0) 1 "x")[0]?
      = some (Activity.init "A" 7) ∧
    (setTagAt (cloneNodeAt [Activity.init "A" 7] 0) 1 "x")[1]?
      = some { Activity.copy (Activity.init "A" 7) with tag := "x" } :=
  ⟨(activity_copy_independent [Activity.init "A" 7] 0 (Activity.init "A" 7) "x"
      rfl).2.2.2.2.2.2.2.2,
   (activity_copy_independent [Activity.init "A" 7] 0 (Activity.init "A" 7) "x"
      rfl).2.2.2.2.2.2.2.1⟩

/-- Counterexample to C2: for a node printed with one argument,
brief=true does not merely drop the closing delimiter — the entire
header line (Activity::print output) and the argument label vanish as
well, and a trailing comma separator appears, so the brief output is
not the non-brief output with the closing delimiter stripped. -/
theorem print_brief_counterexample :
    Activity.printHeader (Activity.init "FOO" 0) "p" "t" "n" 0 false true = "" ∧
    Activity.printFull (Activity.init "FOO" 0) "p" "t" "n" 0 false true false
      [("n: ", "1")] = "1, " ∧
    Activity.printFull (Activity.init "FOO" 0) "p" "t" "n" 0 false false false
      [("n: ", "1")] = "\x7b Activity: FOO          | n: 1 \x7d\n" ∧
    Activity.printFull (Activity.init "FOO" 0) "p" "t" "n" 0 false true false
        [("n: ", "1")]
      ≠ (Activity.printFull (Activity.init "FOO" 0) "p" "t" "n" 0 false false false
          [("n: ", "1")]).dropRight 3 :=
  ⟨rfl, rfl, rfl, by decide⟩

/-- C2 (amended): printing with brief=true suppresses the entire header
line (Activity::print emits nothing) and the argument labels; argument
values are still rendered, each followed by a comma separator when
further arguments follow or when endl is false; the closing delimiter
is suppressed and a trailing newline appears only when endl requests
one, while brief=false always ends with the closing delimiter and a
newline. -/
theorem print_brief_amended (a : Activity) (prevId thisId nextId : String)
    (indent : Nat) (verbose : Bool) :
    Activity.printHeader a prevId thisId nextId indent verbose true = "" ∧
    (∀ endl : Bool, internal.printEnd true endl = if endl then "\n" else "") ∧
    (∀ endl : Bool, internal.printEnd false endl = " \x7d\n") ∧
    (∀ (endl : Bool) (n v : String) (rest : List (String × String)),
      internal.printArgs true endl ((n, v) :: rest)
        = v ++ (if rest ≠ [] ∨ !endl then ", " else "")
          ++ internal.printArgs true endl rest) := by
  refine ⟨rfl, fun endl => by cases endl <;> rfl, fun endl => rfl,
    fun endl n v rest => ?_⟩
  cases endl <;> cases rest <;> simp [internal.printArgs]

end simmer
